import Mathlib

/-!
Verification development for the `ipcom-ari` client library.

The repository snapshot contains the public type declarations
(`src/ari-client/interfaces/*.ts`), the integration-test mock server
(`test/helpers/mockServer.ts`) and the integration tests; the `AriClient`
implementation itself (connection manager, event dispatcher, resource
instance binder/cache) is not part of the snapshot.  Following the
specification, those missing components are modelled here from the spec's
words (each such definition carries a doc comment starting
`Modelled from the spec:`); code that is present in the snapshot (the mock
server's upgrade routing, the config declaration) is embedded directly from
the source.
-/

namespace IpcomAri

/-- An entity reference occurring in an inbound event payload: a channel,
bridge or playback object carrying a string `id`. -/
structure Entity where
  id : String
deriving DecidableEq, Repr

/-- The three resource kinds the binder caches instances for. -/
inductive ResourceKind
  | channel
  | bridge
  | playback
deriving DecidableEq, Repr

/-- Modelled from the spec: the Event Envelope (§3) — a tagged union over
protocol event kinds, always carrying `type` (discriminant) and
`application`, optionally entity payloads, and the `instance<Kind>` fields
that enrichment may add.  Instances are identified by their creation token
(a `Nat`), standing in for object reference identity. -/
structure Envelope where
  type : String
  application : String
  channel : Option Entity := none
  bridge : Option Entity := none
  playback : Option Entity := none
  instanceChannel : Option Nat := none
  instanceBridge : Option Nat := none
  instancePlayback : Option Nat := none
deriving DecidableEq, Repr

/-- The entity payload of an envelope for a given kind. -/
def entityField (e : Envelope) (k : ResourceKind) : Option Entity :=
  match k with
  | .channel => e.channel
  | .bridge => e.bridge
  | .playback => e.playback

/-- The attached instance field of an envelope for a given kind. -/
def instanceField (e : Envelope) (k : ResourceKind) : Option Nat :=
  match k with
  | .channel => e.instanceChannel
  | .bridge => e.instanceBridge
  | .playback => e.instancePlayback

/-- Set the instance field for a given kind (the only field enrichment
writes). -/
def setInstance (e : Envelope) (k : ResourceKind) (tok : Nat) : Envelope :=
  match k with
  | .channel => { e with instanceChannel := some tok }
  | .bridge => { e with instanceBridge := some tok }
  | .playback => { e with instancePlayback := some tok }

/-- Modelled from the spec: the Resource Instance Cache (§3) — a per-client
mapping from `(kind, id)` to the proxy object, here represented by its
creation token; `nextToken` is the source of fresh tokens. -/
structure InstanceCache where
  entries : List ((ResourceKind × String) × Nat)
  nextToken : Nat
deriving DecidableEq, Repr

/-- Lookup in the cache's association list (the model of `Map.get`). -/
def cacheLookup : List ((ResourceKind × String) × Nat) →
    (ResourceKind × String) → Option Nat
  | [], _ => none
  | (k, v) :: rest, key => if key = k then some v else cacheLookup rest key

/-- Remove every binding of a key from the cache's association list (the
model of `Map.delete`). -/
def cacheRemove : List ((ResourceKind × String) × Nat) →
    (ResourceKind × String) → List ((ResourceKind × String) × Nat)
  | [], _ => []
  | (k, v) :: rest, key =>
    if key = k then cacheRemove rest key else (k, v) :: cacheRemove rest key

/-- Modelled from the spec: get-or-create lookup (§3, §4.3) — returns the
cached proxy for `(k, id)` when present, otherwise creates a fresh one and
records it; never duplicate-creates. -/
def getOrCreate (c : InstanceCache) (k : ResourceKind) (id : String) :
    Nat × InstanceCache :=
  match cacheLookup c.entries (k, id) with
  | some tok => (tok, c)
  | none =>
    (c.nextToken,
     { entries := ((k, id), c.nextToken) :: c.entries,
       nextToken := c.nextToken + 1 })

/-- Modelled from the spec: eviction of the cache entry for `(k, id)` (§3). -/
def evictEntry (c : InstanceCache) (k : ResourceKind) (id : String) :
    InstanceCache :=
  { c with entries := cacheRemove c.entries (k, id) }

/-- Modelled from the spec: terminal lifecycle event per kind (§3: "channel
destroyed, bridge destroyed, playback finished"). -/
def terminalEventType (k : ResourceKind) : String :=
  match k with
  | .channel => "ChannelDestroyed"
  | .bridge => "BridgeDestroyed"
  | .playback => "PlaybackFinished"

/-- Modelled from the spec: one enrichment step of the Resource Instance
Binder (§4.3) for a single kind — when the envelope carries an entity of
kind `k`, perform a get-or-create lookup and attach the result under the
corresponding `instance<Kind>` field. -/
def enrichOne (k : ResourceKind) (p : Envelope × InstanceCache) :
    Envelope × InstanceCache :=
  match entityField p.1 k with
  | none => p
  | some ent =>
    let r := getOrCreate p.2 k ent.id
    (setInstance p.1 k r.1, r.2)

/-- Modelled from the spec: post-forwarding eviction (§4.3) — on a terminal
lifecycle event for kind `k`, evict the cache entry of the referenced id. -/
def evictIfTerminal (k : ResourceKind) (e : Envelope) (c : InstanceCache) :
    InstanceCache :=
  if e.type == terminalEventType k then
    match entityField e k with
    | some ent => evictEntry c k ent.id
    | none => c
  else c

/-- Modelled from the spec: the Resource Instance Binder (§4.3) — enrich the
envelope for every entity payload it carries, forward the enriched envelope
(the first component), and only then evict entries for terminal events (the
returned cache): the forwarded envelope is enriched from the pre-eviction
cache. -/
def bindEvent (c : InstanceCache) (e : Envelope) : Envelope × InstanceCache :=
  let p := enrichOne .playback (enrichOne .bridge (enrichOne .channel (e, c)))
  (p.1,
   evictIfTerminal .playback p.1
     (evictIfTerminal .bridge p.1 (evictIfTerminal .channel p.1 p.2)))

/-- Cache well-formedness: every cached token was issued before `nextToken`.
Holds for the empty cache and is preserved by the binder. -/
def cacheWF (c : InstanceCache) : Prop :=
  ∀ kv ∈ c.entries, kv.2 < c.nextToken

/-- The envelope references exactly one entity, of kind `k` with id `id`. -/
def refsOnly (e : Envelope) (k : ResourceKind) (id : String) : Prop :=
  entityField e k = some ⟨id⟩ ∧ ∀ k', k' ≠ k → entityField e k' = none

/-- The empty instance cache a client starts from. -/
def emptyCache : InstanceCache := ⟨[], 0⟩

/-- Modelled from the spec: the Listener Registration table of the Event
Dispatcher (§3, §4.2) — event-type discriminants mapped to ordered
callbacks; listeners are identified by a numeric id, registrations kept in
registration order. -/
structure EventDispatcher where
  registrations : List (String × Nat)
deriving DecidableEq, Repr

/-- Modelled from the spec: `on(eventType, listener)` registers (§4.2). -/
def EventDispatcher.addListener (d : EventDispatcher) (t : String) (l : Nat) :
    EventDispatcher :=
  ⟨d.registrations ++ [(t, l)]⟩

/-- Modelled from the spec: `off(eventType, listener)` unregisters (§4.2). -/
def EventDispatcher.removeListener (d : EventDispatcher) (t : String) (l : Nat) :
    EventDispatcher :=
  ⟨d.registrations.filter (fun r => !(r.1 == t && r.2 == l))⟩

/-- The listeners currently registered for an event type, in registration
order. -/
def listenersFor (d : EventDispatcher) (t : String) : List Nat :=
  (d.registrations.filter (fun r => r.1 == t)).map (fun r => r.2)

/-- A listener's behaviour on one payload: it either returns normally or
throws an exception carrying a message. -/
def ListenerBehavior : Type := Nat → Except String Unit

/-- Modelled from the spec: the dispatch boundary (§4.2) — each listener
call is wrapped; a thrown exception is caught and converted into a message
for the injected logging collaborator instead of propagating. -/
def safeInvoke (behavior : ListenerBehavior) (l : Nat) : Option String :=
  match behavior l with
  | .ok _ => none
  | .error msg => some msg

/-- What one `emit` produced: the listeners actually invoked, in order, and
the messages routed to the logging collaborator. -/
structure EmitResult where
  invoked : List Nat
  logged : List String
deriving DecidableEq, Repr

/-- One step of the dispatch loop: invoke a listener behind the dispatch
boundary, record the invocation, and route a caught exception to the log. -/
def emitStep (behavior : ListenerBehavior) (acc : EmitResult) (l : Nat) :
    EmitResult :=
  match safeInvoke behavior l with
  | none => { acc with invoked := acc.invoked ++ [l] }
  | some msg => ⟨acc.invoked ++ [l], acc.logged ++ [msg]⟩

/-- Modelled from the spec: `emit(eventType, payload)` (§4.2) — deliver
synchronously to all currently registered listeners for that type in
registration order, catching each listener's exception at the dispatch
boundary.  The return type is `EmitResult`, not `Except`: no listener
exception is rethrown into the emitting code path. -/
def emit (d : EventDispatcher) (t : String) (behavior : ListenerBehavior) :
    EmitResult :=
  (listenersFor d t).foldl (emitStep behavior) ⟨[], []⟩

/-- Modelled from the spec: the connection state machine's states (§4.1). -/
inductive ConnectionState
  | Disconnected
  | Connecting
  | Connected
  | Reconnecting
  | Closed
deriving DecidableEq, Repr

/-- Modelled from the spec: the error taxonomy relevant to `connect` (§7). -/
inductive AriError
  | configurationError
  | connectionError
deriving DecidableEq, Repr

/-- From src/ari-client/interfaces/websocket.types.ts: the payload of the
`reconnected` event — `{apps: string[]; subscribedEvents?: ...}`. -/
structure WebSocketReconnectInfo where
  apps : List String
  subscribedEvents : Option (List String)
deriving DecidableEq, Repr

/-- Modelled from the spec: the synthetic client-level events (§6) plus the
delivery of a protocol event to listeners. -/
inductive ClientEvent
  | connected
  | disconnected
  | reconnected (info : WebSocketReconnectInfo)
  | reconnectFailed
  | error
  | protocolEvent (e : Envelope)
deriving DecidableEq, Repr

/-- Modelled from the spec: the Connection singleton's attributes (§3):
current state, subscribed application names, active reconnect-attempt
counter, pending reconnect timer handle, plus the configured attempt bound
(default: unbounded). -/
structure ManagerState where
  connState : ConnectionState
  apps : List String
  subscribedEvents : Option (List String)
  reconnectAttempts : Nat
  pendingReconnectTimer : Bool
  maxReconnectAttempts : Option Nat
deriving DecidableEq, Repr

/-- The manager state of a freshly constructed client. -/
def initialManagerState : ManagerState :=
  { connState := .Disconnected, apps := [], subscribedEvents := none,
    reconnectAttempts := 0, pendingReconnectTimer := false,
    maxReconnectAttempts := none }

/-- Modelled from the spec: `isConnected()` reflects the current state
synchronously, no I/O (§4.1). -/
def isConnected (s : ManagerState) : Bool :=
  s.connState == .Connected

/-- Modelled from the spec: the synchronous part of `connect` (§4.1, §7) —
an empty application list is a caller error rejected immediately with
`ConfigurationError` and never retried; otherwise the manager records the
subscription list and enters `Connecting`. -/
def connectStart (s : ManagerState) (apps : List String)
    (subs : Option (List String)) : Except AriError ManagerState :=
  match apps with
  | [] => .error .configurationError
  | _ =>
    .ok { s with connState := .Connecting, apps := apps,
                 subscribedEvents := subs }

/-- Modelled from the spec: the stream reaches the Connected state (§4.1) —
from `Connecting` this completes the initial `connect` and emits
`connected`; from `Reconnecting` it completes a reattempt and emits
`reconnected` with `{apps, subscribedEvents}`. -/
def handshakeOk (s : ManagerState) : ManagerState × List ClientEvent :=
  match s.connState with
  | .Connecting =>
    ({ s with connState := .Connected, reconnectAttempts := 0 },
     [.connected])
  | .Reconnecting =>
    ({ s with connState := .Connected, reconnectAttempts := 0,
              pendingReconnectTimer := false },
     [.reconnected ⟨s.apps, s.subscribedEvents⟩])
  | _ => (s, [])

/-- Modelled from the spec: handshake failure (§4.1, §7) — an initial
handshake failure rejects `connect` with `ConnectionError` and does not
auto-retry; a failed reattempt schedules another unless the configured
bound is exceeded, in which case `reconnectFailed` is emitted and the
manager closes. -/
def handshakeFailed (s : ManagerState) :
    ManagerState × List ClientEvent × Option AriError :=
  match s.connState with
  | .Connecting =>
    ({ s with connState := .Disconnected }, [], some .connectionError)
  | .Reconnecting =>
    match s.maxReconnectAttempts with
    | some bound =>
      if bound < s.reconnectAttempts + 1 then
        ({ s with connState := .Closed, pendingReconnectTimer := false,
                  reconnectAttempts := s.reconnectAttempts + 1 },
         [.reconnectFailed], none)
      else
        ({ s with reconnectAttempts := s.reconnectAttempts + 1,
                  pendingReconnectTimer := true }, [], none)
    | none =>
      ({ s with reconnectAttempts := s.reconnectAttempts + 1,
                pendingReconnectTimer := true }, [], none)
  | _ => (s, [], none)

/-- Modelled from the spec: an unexpected closure, not caused by an explicit
`close()` (§4.1) — from `Connected` it transitions to `Reconnecting` and
schedules the reconnect timer. -/
def socketClosedUnexpectedly (s : ManagerState) : ManagerState :=
  match s.connState with
  | .Connected =>
    { s with connState := .Reconnecting, pendingReconnectTimer := true }
  | _ => s

/-- Modelled from the spec: `close()` (§4.1) — idempotent; from any state it
transitions directly to `Closed`, synchronously cancelling any pending
reconnect timer, and emits `disconnected`; a second call changes nothing
and emits nothing. -/
def closeCall (s : ManagerState) : ManagerState × List ClientEvent :=
  ({ s with connState := .Closed, pendingReconnectTimer := false },
   if s.connState = .Closed then [] else [.disconnected])

/-- Modelled from the spec: the cancellable reconnect timer firing (§4.1,
§5) — a reconnect attempt starts only when the timer is still pending and
the manager is still `Reconnecting`; a cancelled timer is a no-op, so no
reconnect can race a user-directed shutdown. -/
def timerFired (s : ManagerState) : ManagerState :=
  if s.pendingReconnectTimer && s.connState == .Reconnecting then
    { s with pendingReconnectTimer := false }
  else s

/-- An inbound frame as the manager sees it: either not JSON at all, or a
JSON object whose discriminant field may be missing. -/
inductive Frame
  | notJson (raw : String)
  | jsonObj (typeField : Option String) (application : String)
      (channel : Option Entity) (bridge : Option Entity)
      (playback : Option Entity)
deriving DecidableEq, Repr

/-- Modelled from the spec: frame parsing (§4.1, §6) — a frame that is not
JSON, or JSON missing the `type` discriminant, is a `ProtocolError`. -/
def parseFrame : Frame → Except String Envelope
  | .notJson raw => .error ("Error processing WebSocket message: " ++ raw)
  | .jsonObj none _ _ _ _ => .error "Invalid event: missing type field"
  | .jsonObj (some t) app ch br pb =>
    .ok { type := t, application := app, channel := ch, bridge := br,
          playback := pb }

/-- Whether a frame is malformed (non-JSON, or missing the discriminant). -/
def isMalformed (f : Frame) : Bool :=
  match f with
  | .notJson _ => true
  | .jsonObj none _ _ _ _ => true
  | .jsonObj (some _) _ _ _ _ => false

/-- The outcome of processing one inbound frame: the manager state and
cache afterwards, the events emitted to listeners, and the messages routed
to the logging collaborator. -/
structure FrameResult where
  manager : ManagerState
  cache : InstanceCache
  emitted : List ClientEvent
  logged : List String
deriving DecidableEq, Repr

/-- Modelled from the spec: one-frame processing (§2, §4.1) — a malformed
frame is logged and dropped, leaving manager state, cache and listeners
untouched; a well-formed frame is enriched by the binder and forwarded to
the dispatcher. -/
def handleFrame (s : ManagerState) (c : InstanceCache) (f : Frame) :
    FrameResult :=
  match parseFrame f with
  | .error msg => ⟨s, c, [], [msg]⟩
  | .ok env =>
    let p := bindEvent c env
    ⟨s, p.2, [.protocolEvent p.1], []⟩

/-- Embeds the JavaScript `s.startsWith(pre)` used by the mock server: the
character sequence of `pre` is a prefix of that of `s`. -/
def jsStartsWith (s pre : String) : Bool :=
  pre.data.isPrefixOf s.data

/-- What the mock server does with a WebSocket upgrade request. -/
inductive UpgradeAction
  | accept
  | destroySocket
deriving DecidableEq, Repr

/-- From src/test/helpers/mockServer.ts (the `upgrade` handler): an upgrade
request is accepted only when its URL starts with `/ari/events`; any other
upgrade request has its socket destroyed. -/
def upgradeHandler (url : Option String) : UpgradeAction :=
  match url with
  | some u => if jsStartsWith u "/ari/events" then .accept else .destroySocket
  | none => .destroySocket

/-- Modelled from the spec: the events path of the stream endpoint
(§6: `<scheme>://<host>:<port>/<events-path>`); the concrete path is fixed
by the in-repo integration tests, whose client connects successfully to a
mock server that accepts upgrades only under `/ari/events`. -/
def eventsPath : String := "/ari/events"

/-- Modelled from the spec: the stream target built by `connect` (§4.1) —
the application list and credentials are encoded as query parameters after
the events path. -/
def buildWsPath (apps : List String) (apiKey : String) : String :=
  eventsPath ++ "?app=" ++ String.intercalate "," apps ++ "&api_key=" ++ apiKey

/-- The transport a connection rides on. -/
inductive Transport
  | plainHttp
  | tlsHttps
deriving DecidableEq, Repr

/-- From src/test/helpers/mockServer.ts: the mock server is created with
node's plain `http.createServer` — a non-TLS transport. -/
def mockServerTransport : Transport := .plainHttp

/-- From the `AriClientConfig` declaration: the `secure?: boolean` field's
comment claims "(default: true)". -/
def commentedSecureDefault : Bool := true

/-- Modelled from the spec: the client's effective scheme selection (the
`AriClient` implementation is absent from the snapshot).  §6 leaves the
scheme to the transport; the in-repo lifecycle test connects a client
configured without `secure` to the plain `node:http` mock server and
succeeds, fixing the omitted-`secure` behaviour to the plain transport. -/
def effectiveTransport (secure : Option Bool) : Transport :=
  if secure.getD false then .tlsHttps else .plainHttp

/-- A manager state connected with `["app1"]`, as the lifecycle test reaches
after `connectWebSocket(['app1'])` succeeds. -/
def connectedState : ManagerState :=
  { connState := .Connected, apps := ["app1"], subscribedEvents := none,
    reconnectAttempts := 0, pendingReconnectTimer := false,
    maxReconnectAttempts := none }

/-- A `StasisStart` envelope for channel `c1`, as sent by the lifecycle
test. -/
def evStart1 : Envelope :=
  { type := "StasisStart", application := "app1", channel := some ⟨"c1"⟩ }

/-- A terminal `ChannelDestroyed` envelope for channel `c1`. -/
def evDestroy1 : Envelope :=
  { type := "ChannelDestroyed", application := "app1",
    channel := some ⟨"c1"⟩ }

/-- C8: a `connect` call with an empty application list fails with
`ConfigurationError` — returned synchronously as the rejection, from any
manager state, with no resulting connecting state (so nothing is retried
and the empty list is never silently accepted). -/
theorem empty_apps_configuration_error (s : ManagerState)
    (subs : Option (List String)) :
    connectStart s [] subs = .error AriError.configurationError := rfl

/-- C10: when `secure` is omitted the client's effective transport is plain
HTTP/WebSocket — it matches the plain `node:http` mock server the tests
connect to — even though the `AriClientConfig` declaration's comment claims
the default is `true` (which would select TLS and not match the server). -/
theorem omitted_secure_uses_plain_transport :
    effectiveTransport none = Transport.plainHttp ∧
    effectiveTransport none = mockServerTransport ∧
    effectiveTransport (some commentedSecureDefault) ≠ mockServerTransport :=
  ⟨rfl, rfl, by decide⟩

/-- C1: a `connect` call with a non-empty application list succeeds when the
stream reaches the Connected state: `isConnected()` becomes true and the
`connected` event fires exactly once. -/
theorem connect_emits_connected_once (s : ManagerState) (apps : List String)
    (subs : Option (List String)) (hne : apps ≠ []) :
    ∃ s', connectStart s apps subs = .ok s' ∧
      isConnected (handshakeOk s').1 = true ∧
      (handshakeOk s').2 = [ClientEvent.connected] ∧
      (handshakeOk s').2.count ClientEvent.connected = 1 := by
  cases apps with
  | nil => exact absurd rfl hne
  | cons a as =>
    refine ⟨_, rfl, ?_, ?_, ?_⟩ <;>
      simp [connectStart, handshakeOk, isConnected]

/-- Witness for C1 at the test's concrete input `['testApp']`. -/
theorem connect_emits_connected_once_witness :
    (["testApp"] : List String) ≠ [] ∧
    ∃ s', connectStart initialManagerState ["testApp"] none = .ok s' ∧
      isConnected (handshakeOk s').1 = true ∧
      (handshakeOk s').2 = [ClientEvent.connected] ∧
      (handshakeOk s').2.count ClientEvent.connected = 1 :=
  ⟨by decide,
   connect_emits_connected_once initialManagerState ["testApp"] none
     (by decide)⟩

/-- C4: a malformed inbound frame (non-JSON, or JSON without the `type`
discriminant) is logged and dropped: the manager state — hence
`isConnected()` and the reconnect timer — and the cache are unchanged, and
no event (in particular neither `error` nor `reconnectFailed`) is
emitted. -/
theorem malformed_frame_dropped (s : ManagerState) (c : InstanceCache)
    (f : Frame) (hf : isMalformed f = true) :
    (handleFrame s c f).manager = s ∧
    isConnected (handleFrame s c f).manager = isConnected s ∧
    (handleFrame s c f).cache = c ∧
    (handleFrame s c f).emitted = [] ∧
    (handleFrame s c f).logged ≠ [] := by
  cases f with
  | notJson raw => simp [handleFrame, parseFrame]
  | jsonObj t app ch br pb =>
    cases t with
    | none => simp [handleFrame, parseFrame]
    | some t => simp [isMalformed] at hf

/-- Witness for C4 at a concrete non-JSON frame. -/
theorem malformed_frame_dropped_witness :
    isMalformed (Frame.notJson "not json") = true ∧
    ((handleFrame initialManagerState emptyCache
        (Frame.notJson "not json")).manager = initialManagerState ∧
     isConnected (handleFrame initialManagerState emptyCache
        (Frame.notJson "not json")).manager = isConnected initialManagerState ∧
     (handleFrame initialManagerState emptyCache
        (Frame.notJson "not json")).cache = emptyCache ∧
     (handleFrame initialManagerState emptyCache
        (Frame.notJson "not json")).emitted = [] ∧
     (handleFrame initialManagerState emptyCache
        (Frame.notJson "not json")).logged ≠ []) :=
  ⟨rfl, malformed_frame_dropped initialManagerState emptyCache
    (Frame.notJson "not json") rfl⟩

/-- C3: `close()` is idempotent — from any state it transitions to `Closed`
and synchronously cancels the pending reconnect timer; `isConnected()` is
false afterwards, a cancelled timer firing is a no-op and no handshake can
resurrect the connection, a second `close()` changes nothing, and two calls
produce exactly one `disconnected` event (none when the manager was already
closed). -/
theorem close_idempotent (s : ManagerState) :
    (closeCall s).1.connState = ConnectionState.Closed ∧
    (closeCall s).1.pendingReconnectTimer = false ∧
    isConnected (closeCall s).1 = false ∧
    closeCall (closeCall s).1 = ((closeCall s).1, []) ∧
    timerFired (closeCall s).1 = (closeCall s).1 ∧
    handshakeOk (closeCall s).1 = ((closeCall s).1, []) ∧
    (closeCall s).2 ++ (closeCall (closeCall s).1).2 =
      (if s.connState = ConnectionState.Closed then []
       else [ClientEvent.disconnected]) := by
  refine ⟨?_, ?_, ?_, ?_, ?_, ?_, ?_⟩ <;>
    simp [closeCall, isConnected, timerFired, handshakeOk]

/-- The dispatch loop invokes every listener of the given list in order and
logs exactly the exceptions the invoked listeners threw. -/
theorem emitStep_foldl (behavior : ListenerBehavior) (ls : List Nat)
    (acc : EmitResult) :
    ls.foldl (emitStep behavior) acc =
      ⟨acc.invoked ++ ls, acc.logged ++ ls.filterMap (safeInvoke behavior)⟩ := by
  induction ls generalizing acc with
  | nil => simp
  | cons a as ih =>
    rw [List.foldl_cons, ih]
    cases h : safeInvoke behavior a <;> simp [emitStep, h]

/-- C5: `emit` delivers synchronously to all currently registered listeners
for the type, in registration order, regardless of listener failures: a
throwing listener is still followed by every later listener, its exception
is caught at the dispatch boundary and routed to the log (and, `emit`
returning an `EmitResult` rather than an `Except`, never rethrown into the
emitting code path); registering appends to that type's list and leaves
every other event type's listeners untouched. -/
theorem emit_delivers_in_order (d : EventDispatcher) (t : String)
    (behavior : ListenerBehavior) (l : Nat) :
    (emit d t behavior).invoked = listenersFor d t ∧
    (emit d t behavior).logged =
      (listenersFor d t).filterMap (safeInvoke behavior) ∧
    listenersFor (d.addListener t l) t = listenersFor d t ++ [l] ∧
    ∀ t', t' ≠ t → listenersFor (d.addListener t l) t' = listenersFor d t' := by
  refine ⟨?_, ?_, ?_, ?_⟩
  · rw [emit, emitStep_foldl]; simp
  · rw [emit, emitStep_foldl]; simp
  · simp [EventDispatcher.addListener, listenersFor, List.filter_append]
  · intro t' h
    simp [EventDispatcher.addListener, listenersFor, List.filter_append,
      Ne.symm h]

/-- Witness for C5: two listeners on `StasisStart`, the first throws; both
are invoked in order, the exception is logged, and registering a third
listener does not disturb `StasisEnd`. -/
theorem emit_delivers_in_order_witness :
    (emit ⟨[("StasisStart", 0), ("StasisStart", 1)]⟩ "StasisStart"
      (fun l => if l == 0 then .error "listener failure" else .ok ())).invoked
        = [0, 1] ∧
    (emit ⟨[("StasisStart", 0), ("StasisStart", 1)]⟩ "StasisStart"
      (fun l => if l == 0 then .error "listener failure" else .ok ())).logged
        = ["listener failure"] ∧
    listenersFor ((⟨[("StasisStart", 0), ("StasisStart", 1)]⟩ :
        EventDispatcher).addListener "StasisStart" 2) "StasisStart"
        = [0, 1, 2] ∧
    listenersFor ((⟨[("StasisStart", 0), ("StasisStart", 1)]⟩ :
        EventDispatcher).addListener "StasisStart" 2) "StasisEnd" = [] := by
  have h := emit_delivers_in_order ⟨[("StasisStart", 0), ("StasisStart", 1)]⟩
    "StasisStart" (fun l => if l == 0 then .error "listener failure" else .ok ()) 2
  refine ⟨h.1.trans (by decide), (h.2.1).trans (by decide),
    (h.2.2.1).trans (by decide), (h.2.2.2 "StasisEnd" (by decide)).trans (by decide)⟩

/-- C2: after an unexpected socket closure on a connected client the manager
enters `Reconnecting` with a scheduled timer; the timer firing starts a
reattempt, and a successful re-handshake makes `isConnected()` true again
and emits the `reconnected` event, carrying `{apps, subscribedEvents}`,
exactly once; afterwards a well-formed inbound frame is again delivered to
listeners without any caller intervention. -/
theorem reconnect_restores_delivery (s : ManagerState)
    (hc : s.connState = ConnectionState.Connected)
    (c : InstanceCache) (f : Frame) (hf : isMalformed f = false) :
    (socketClosedUnexpectedly s).connState = ConnectionState.Reconnecting ∧
    (socketClosedUnexpectedly s).pendingReconnectTimer = true ∧
    isConnected (handshakeOk (timerFired (socketClosedUnexpectedly s))).1 = true ∧
    (handshakeOk (timerFired (socketClosedUnexpectedly s))).2 =
      [ClientEvent.reconnected ⟨s.apps, s.subscribedEvents⟩] ∧
    (handshakeOk (timerFired (socketClosedUnexpectedly s))).2.count
      (ClientEvent.reconnected ⟨s.apps, s.subscribedEvents⟩) = 1 ∧
    ∃ env, parseFrame f = .ok env ∧
      handleFrame (handshakeOk (timerFired (socketClosedUnexpectedly s))).1 c f =
        ⟨(handshakeOk (timerFired (socketClosedUnexpectedly s))).1,
         (bindEvent c env).2,
         [ClientEvent.protocolEvent (bindEvent c env).1], []⟩ := by
  refine ⟨?_, ?_, ?_, ?_, ?_, ?_⟩
  · simp [socketClosedUnexpectedly, hc]
  · simp [socketClosedUnexpectedly, hc]
  · simp [socketClosedUnexpectedly, hc, timerFired, handshakeOk, isConnected]
  · simp [socketClosedUnexpectedly, hc, timerFired, handshakeOk]
  · simp [socketClosedUnexpectedly, hc, timerFired, handshakeOk]
  · cases f with
    | notJson raw => simp [isMalformed] at hf
    | jsonObj t app ch br pb =>
      cases t with
      | none => simp [isMalformed] at hf
      | some t =>
        exact ⟨_, rfl, by simp [handleFrame, parseFrame]⟩

/-- Witness for C2 at the lifecycle test's concrete scenario: a client
connected with `['app1']` suffers a drop, re-handshakes, and then receives
the test's second `StasisStart` frame. -/
theorem reconnect_restores_delivery_witness :
    connectedState.connState = ConnectionState.Connected ∧
    isMalformed (Frame.jsonObj (some "StasisStart") "app1"
      (some ⟨"c2"⟩) none none) = false ∧
    isConnected
      (handshakeOk (timerFired (socketClosedUnexpectedly connectedState))).1
      = true ∧
    (handshakeOk (timerFired (socketClosedUnexpectedly connectedState))).2 =
      [ClientEvent.reconnected ⟨["app1"], none⟩] := by
  have h := reconnect_restores_delivery connectedState rfl emptyCache
    (Frame.jsonObj (some "StasisStart") "app1" (some ⟨"c2"⟩) none none) rfl
  exact ⟨rfl, rfl, h.2.2.1, h.2.2.2.1⟩

/-- A character list is a `isPrefixOf` of itself followed by anything. -/
theorem isPrefixOf_append_self (l₁ l₂ : List Char) :
    l₁.isPrefixOf (l₁ ++ l₂) = true := by
  induction l₁ with
  | nil => simp [List.isPrefixOf]
  | cons a as ih => simp [List.isPrefixOf, ih]

/-- Appending strings concatenates their character data. -/
theorem string_data_append (s t : String) :
    (s ++ t).data = s.data ++ t.data := rfl

/-- C9: every stream target the client builds lies under `/ari/events`, the
only path prefix for which the mock server completes the WebSocket upgrade;
any upgrade request for a URL outside `/ari/events` (or with no URL) has
its socket destroyed, so the client's observed successful connections pin
`/ari/events` as the events path it targets. -/
theorem ws_upgrade_targets_ari_events_path (apps : List String)
    (apiKey : String) :
    upgradeHandler (some (buildWsPath apps apiKey)) = UpgradeAction.accept ∧
    (∀ u : String, jsStartsWith u "/ari/events" = false →
      upgradeHandler (some u) = UpgradeAction.destroySocket) ∧
    upgradeHandler none = UpgradeAction.destroySocket := by
  refine ⟨?_, ?_, rfl⟩
  · have h : jsStartsWith (buildWsPath apps apiKey) "/ari/events" = true := by
      show ("/ari/events".data).isPrefixOf (buildWsPath apps apiKey).data = true
      rw [buildWsPath, eventsPath]
      simp only [string_data_append, List.append_assoc]
      exact isPrefixOf_append_self _ _
    simp [upgradeHandler, h]
  · intro u hu
    simp [upgradeHandler, hu]

/-- Witness for C9 at the test's concrete subscription `['app1']`: the built
target is accepted, a stray path is destroyed. -/
theorem ws_upgrade_targets_ari_events_path_witness :
    upgradeHandler (some (buildWsPath ["app1"] "user:pass")) =
      UpgradeAction.accept ∧
    jsStartsWith "/other/path" "/ari/events" = false ∧
    upgradeHandler (some "/other/path") = UpgradeAction.destroySocket :=
  ⟨(ws_upgrade_targets_ari_events_path ["app1"] "user:pass").1,
   by decide,
   (ws_upgrade_targets_ari_events_path ["app1"] "user:pass").2.1
     "/other/path" (by decide)⟩

/-- Enrichment never changes the envelope's pre-existing fields. -/
theorem enrichOne_preserves (k : ResourceKind) (p : Envelope × InstanceCache) :
    (enrichOne k p).1.type = p.1.type ∧
    (enrichOne k p).1.application = p.1.application ∧
    (enrichOne k p).1.channel = p.1.channel ∧
    (enrichOne k p).1.bridge = p.1.bridge ∧
    (enrichOne k p).1.playback = p.1.playback := by
  cases h : entityField p.1 k with
  | none => simp [enrichOne, h]
  | some ent => cases k <;> simp [enrichOne, h, setInstance]

/-- C7: the binder only adds `instance<Kind>` fields — the envelope's
`type`, `application` and entity payload fields are bit-for-bit those of
the inbound envelope — and an envelope carrying no entity reference passes
through entirely unmodified, cache included. -/
theorem enrichment_only_adds_fields (c : InstanceCache) (e : Envelope) :
    (bindEvent c e).1.type = e.type ∧
    (bindEvent c e).1.application = e.application ∧
    (bindEvent c e).1.channel = e.channel ∧
    (bindEvent c e).1.bridge = e.bridge ∧
    (bindEvent c e).1.playback = e.playback ∧
    (e.channel = none → e.bridge = none → e.playback = none →
      bindEvent c e = (e, c)) := by
  have h1 := enrichOne_preserves .channel (e, c)
  have h2 := enrichOne_preserves .bridge (enrichOne .channel (e, c))
  have h3 := enrichOne_preserves .playback
    (enrichOne .bridge (enrichOne .channel (e, c)))
  refine ⟨?_, ?_, ?_, ?_, ?_, ?_⟩
  · show (enrichOne .playback (enrichOne .bridge
      (enrichOne .channel (e, c)))).1.type = e.type
    exact h3.1.trans (h2.1.trans h1.1)
  · exact h3.2.1.trans (h2.2.1.trans h1.2.1)
  · exact h3.2.2.1.trans (h2.2.2.1.trans h1.2.2.1)
  · exact h3.2.2.2.1.trans (h2.2.2.2.1.trans h1.2.2.2.1)
  · exact h3.2.2.2.2.trans (h2.2.2.2.2.trans h1.2.2.2.2)
  · intro hc hb hp
    simp [bindEvent, enrichOne, entityField, hc, hb, hp, evictIfTerminal]

/-- Witness for C7: an entity-free `PeerStatusChange` envelope passes the
binder unmodified. -/
theorem enrichment_only_adds_fields_witness :
    bindEvent emptyCache { type := "PeerStatusChange", application := "app1" }
      = ({ type := "PeerStatusChange", application := "app1" }, emptyCache) :=
  (enrichment_only_adds_fields emptyCache
    { type := "PeerStatusChange", application := "app1" }).2.2.2.2.2
    rfl rfl rfl

/-- A successful cache lookup returns one of the stored bindings. -/
theorem cacheLookup_mem : ∀ {l : List ((ResourceKind × String) × Nat)}
    {key : ResourceKind × String} {v : Nat},
    cacheLookup l key = some v → (key, v) ∈ l := by
  intro l
  induction l with
  | nil => intro key v h; simp [cacheLookup] at h
  | cons kv rest ih =>
    intro key v h
    obtain ⟨k, b⟩ := kv
    by_cases hk : key = k
    · subst hk
      simp [cacheLookup] at h
      subst h
      exact List.mem_cons_self _ _
    · simp [cacheLookup, hk] at h
      exact List.mem_cons_of_mem _ (ih h)

/-- After removing a key, looking it up finds nothing. -/
theorem cacheLookup_cacheRemove_self (l : List ((ResourceKind × String) × Nat))
    (key : ResourceKind × String) :
    cacheLookup (cacheRemove l key) key = none := by
  induction l with
  | nil => simp [cacheRemove, cacheLookup]
  | cons kv rest ih =>
    obtain ⟨k, b⟩ := kv
    by_cases hk : key = k
    · subst hk; simp [cacheRemove, ih]
    · simp [cacheRemove, hk, cacheLookup, ih]

/-- Removal only drops bindings, it never invents one. -/
theorem mem_cacheRemove : ∀ {l : List ((ResourceKind × String) × Nat)}
    {key : ResourceKind × String} {kv : (ResourceKind × String) × Nat},
    kv ∈ cacheRemove l key → kv ∈ l := by
  intro l
  induction l with
  | nil => intro key kv h; simp [cacheRemove] at h
  | cons hd rest ih =>
    intro key kv h
    obtain ⟨k, b⟩ := hd
    by_cases hk : key = k
    · simp only [cacheRemove, if_pos hk] at h
      exact List.mem_cons_of_mem _ (ih h)
    · simp only [cacheRemove, if_neg hk, List.mem_cons] at h
      cases h with
      | inl h => simp [h]
      | inr h => exact List.mem_cons_of_mem _ (ih h)

/-- A get-or-create that finds the key is a pure lookup. -/
theorem getOrCreate_of_lookup_some {c : InstanceCache} {k : ResourceKind}
    {id : String} {tok : Nat}
    (h : cacheLookup c.entries (k, id) = some tok) :
    getOrCreate c k id = (tok, c) := by
  simp [getOrCreate, h]

/-- A get-or-create that misses creates the next fresh token. -/
theorem getOrCreate_of_lookup_none {c : InstanceCache} {k : ResourceKind}
    {id : String} (h : cacheLookup c.entries (k, id) = none) :
    getOrCreate c k id =
      (c.nextToken,
       { entries := ((k, id), c.nextToken) :: c.entries,
         nextToken := c.nextToken + 1 }) := by
  simp [getOrCreate, h]

/-- After a get-or-create, the key maps to exactly the returned token. -/
theorem getOrCreate_lookup_self (c : InstanceCache) (k : ResourceKind)
    (id : String) :
    cacheLookup (getOrCreate c k id).2.entries (k, id) =
      some (getOrCreate c k id).1 := by
  cases h : cacheLookup c.entries (k, id) with
  | some tok => simp [getOrCreate, h]
  | none => simp [getOrCreate, h, cacheLookup]

/-- In a well-formed cache, the token a get-or-create returns is below the
resulting cache's next fresh token. -/
theorem getOrCreate_tok_lt (c : InstanceCache) (k : ResourceKind)
    (id : String) (hwf : cacheWF c) :
    (getOrCreate c k id).1 < (getOrCreate c k id).2.nextToken := by
  cases h : cacheLookup c.entries (k, id) with
  | some tok =>
    have hm := cacheLookup_mem h
    have hlt := hwf _ hm
    simpa [getOrCreate, h] using hlt
  | none => simp [getOrCreate, h]

/-- Enrichment sets exactly the instance field of the enriched kind. -/
theorem instanceField_setInstance (e : Envelope) (k : ResourceKind)
    (tok : Nat) :
    instanceField (setInstance e k tok) k = some tok := by
  cases k <;> rfl

/-- The binder on an envelope referencing exactly one entity: it attaches
the get-or-create token for that entity and, exactly when the event is the
terminal one for the kind, evicts the entry from the post-lookup cache. -/
theorem bindEvent_single (c : InstanceCache) (e : Envelope)
    (k : ResourceKind) (id : String) (h : refsOnly e k id) :
    bindEvent c e =
      (setInstance e k (getOrCreate c k id).1,
       if e.type == terminalEventType k then
         evictEntry (getOrCreate c k id).2 k id
       else (getOrCreate c k id).2) := by
  obtain ⟨hk, hother⟩ := h
  cases k with
  | channel =>
    have hb := hother .bridge (by decide)
    have hp := hother .playback (by decide)
    simp only [entityField] at hk hb hp
    simp [bindEvent, enrichOne, entityField, hk, hb, hp, setInstance,
      evictIfTerminal, terminalEventType]
  | bridge =>
    have hc' := hother .channel (by decide)
    have hp := hother .playback (by decide)
    simp only [entityField] at hk hc' hp
    simp [bindEvent, enrichOne, entityField, hk, hc', hp, setInstance,
      evictIfTerminal, terminalEventType]
  | playback =>
    have hc' := hother .channel (by decide)
    have hb := hother .bridge (by decide)
    simp only [entityField] at hk hc' hb
    simp [bindEvent, enrichOne, entityField, hk, hc', hb, setInstance,
      evictIfTerminal, terminalEventType]

/-- C6: within a session, two events for the same `(kind, id)` before the
terminal event get reference-equal instances (the same cache token); the
terminal event itself is still enriched with that same valid instance and
only the returned cache has the entry evicted; a subsequent event for that
id receives a freshly created, different instance. -/
theorem instance_cache_reuse_and_eviction
    (c : InstanceCache) (k : ResourceKind) (id : String)
    (e1 e2 e3 : Envelope) (hwf : cacheWF c)
    (h1 : refsOnly e1 k id) (ht1 : (e1.type == terminalEventType k) = false)
    (h2 : refsOnly e2 k id) (ht2 : (e2.type == terminalEventType k) = true)
    (h3 : refsOnly e3 k id) :
    instanceField (bindEvent c e1).1 k =
      instanceField (bindEvent (bindEvent c e1).2 e2).1 k ∧
    (instanceField (bindEvent (bindEvent c e1).2 e2).1 k).isSome = true ∧
    cacheLookup (bindEvent (bindEvent c e1).2 e2).2.entries (k, id) = none ∧
    instanceField (bindEvent (bindEvent (bindEvent c e1).2 e2).2 e3).1 k ≠
      instanceField (bindEvent (bindEvent c e1).2 e2).1 k := by
  have hb1 : bindEvent c e1 =
      (setInstance e1 k (getOrCreate c k id).1, (getOrCreate c k id).2) := by
    rw [bindEvent_single c e1 k id h1]; simp [ht1]
  have hl : cacheLookup (getOrCreate c k id).2.entries (k, id) =
      some (getOrCreate c k id).1 := getOrCreate_lookup_self c k id
  have hg2 : getOrCreate (getOrCreate c k id).2 k id =
      ((getOrCreate c k id).1, (getOrCreate c k id).2) :=
    getOrCreate_of_lookup_some hl
  have hb2 : bindEvent (getOrCreate c k id).2 e2 =
      (setInstance e2 k (getOrCreate c k id).1,
       evictEntry (getOrCreate c k id).2 k id) := by
    rw [bindEvent_single _ e2 k id h2, hg2]; simp [ht2]
  have hl3 : cacheLookup (evictEntry (getOrCreate c k id).2 k id).entries
      (k, id) = none := cacheLookup_cacheRemove_self _ _
  have hg3fst : (getOrCreate (evictEntry (getOrCreate c k id).2 k id) k id).1 =
      (getOrCreate c k id).2.nextToken := by
    rw [getOrCreate_of_lookup_none hl3]; rfl
  have hb3 : instanceField
      (bindEvent (evictEntry (getOrCreate c k id).2 k id) e3).1 k =
      some (getOrCreate c k id).2.nextToken := by
    rw [bindEvent_single _ e3 k id h3]
    simp [instanceField_setInstance, hg3fst]
  have hlt : (getOrCreate c k id).1 < (getOrCreate c k id).2.nextToken :=
    getOrCreate_tok_lt c k id hwf
  refine ⟨?_, ?_, ?_, ?_⟩
  · simp [hb1, hb2, instanceField_setInstance]
  · simp [hb1, hb2, instanceField_setInstance]
  · simp [hb1, hb2, hl3]
  · simp only [hb1, hb2]
    simp only [hb3]
    simp [instanceField_setInstance]
    omega

/-- Witness for C6 at the tests' concrete channel scenario: `StasisStart`
for `c1`, then `ChannelDestroyed` for `c1`, then `StasisStart` for `c1`
again, starting from the empty cache. -/
theorem instance_cache_reuse_and_eviction_witness :
    instanceField (bindEvent emptyCache evStart1).1 .channel =
      instanceField (bindEvent (bindEvent emptyCache evStart1).2 evDestroy1).1
        .channel ∧
    (instanceField (bindEvent (bindEvent emptyCache evStart1).2 evDestroy1).1
        .channel).isSome = true ∧
    cacheLookup (bindEvent (bindEvent emptyCache evStart1).2 evDestroy1).2.entries
      (.channel, "c1") = none ∧
    instanceField (bindEvent (bindEvent (bindEvent emptyCache evStart1).2
        evDestroy1).2 evStart1).1 .channel ≠
      instanceField (bindEvent (bindEvent emptyCache evStart1).2 evDestroy1).1
        .channel :=
  instance_cache_reuse_and_eviction emptyCache .channel "c1"
    evStart1 evDestroy1 evStart1
    (by intro kv hkv; simp [emptyCache] at hkv)
    ⟨rfl, fun k' h => by cases k' <;> first | exact absurd rfl h | rfl⟩
    (by decide)
    ⟨rfl, fun k' h => by cases k' <;> first | exact absurd rfl h | rfl⟩
    (by decide)
    ⟨rfl, fun k' h => by cases k' <;> first | exact absurd rfl h | rfl⟩

end IpcomAri
